import Mathlib

/-!
Shallow embedding of bot.py, a Telegram bot that relays Terabox share
links.  The regular-expression extraction steps of the source are
modelled as executable functions over lists of characters, and the
handler, the membership gate and the fetch routine are modelled as pure
functions from their external inputs (HTTP responses, the membership
query result, the temp-file name handed out by the OS, the reported
file size, whether the document send raises) to the list of observable
actions performed together with the returned value.
-/

/-- Observable effects of one handler invocation of bot.py. -/
inductive Act where
  | replyText (msg : String)
  | replyButton (msg : String) (label : String) (url : String)
  | httpGet (url : String)
  | createTempFile (path : String)
  | writeFile (path : String)
  | sendDocument (path : String) (filename : String)
  | deleteFile (path : String)
  deriving DecidableEq

/-- Python str.strip with no argument: drop whitespace at both ends
(bot.py line 85). -/
def pyStrip (s : List Char) : List Char :=
  ((s.dropWhile Char.isWhitespace).reverse.dropWhile Char.isWhitespace).reverse

/-- Match a literal at the head of the input, returning the remainder
after the literal when it is present. -/
def stripLit : List Char → List Char → Option (List Char)
  | [], s => some s
  | _ :: _, [] => none
  | c :: l, d :: s => if c = d then stripLit l s else none

/-- Leftmost-match search: re.search specialised to the matchers used
below, trying the pattern at every position from the left and returning
the first success. -/
def reSearch (m : List Char → Option (List Char)) : List Char → Option (List Char)
  | [] => none
  | c :: rest =>
    match m (c :: rest) with
    | some v => some v
    | none => reSearch m rest

/-- The literal chars of the regex fragment matching the JSON-escaped
key, bot.py line 154: a double quote, download_url, double quote, colon,
double quote. -/
def dlKeyLit : List Char :=
  ['"', 'd', 'o', 'w', 'n', 'l', 'o', 'a', 'd', '_', 'u', 'r', 'l', '"', ':', '"']

/-- The literal chars matching the JSON-escaped https prefix of the
captured group in bot.py line 154: https colon backslash slash
backslash slash. -/
def httpsEscLit : List Char :=
  ['h', 't', 't', 'p', 's', ':', '\\', '/', '\\', '/']

/-- The chars before the first double quote, provided one exists: the
body matched by the character class of bot.py line 154 followed by the
closing quote (the non-empty requirement is checked by the caller). -/
def takeToQuote : List Char → Option (List Char)
  | [] => none
  | c :: rest => if c = '"' then some [] else (takeToQuote rest).map (fun b => c :: b)

/-- One position of the download-url regex search of bot.py line 154. -/
def matchDlAt (s : List Char) : Option (List Char) :=
  match stripLit (dlKeyLit ++ httpsEscLit) s with
  | none => none
  | some r =>
    match takeToQuote r with
    | none => none
    | some body => if body = [] then none else some (httpsEscLit ++ body)

/-- Python replace of the two-char sequence backslash slash by a single
slash (bot.py line 156): non-overlapping, left to right. -/
def unescapeSlashes : List Char → List Char
  | [] => []
  | [c] => [c]
  | c1 :: c2 :: rest =>
    if c1 = '\\' ∧ c2 = '/' then '/' :: unescapeSlashes rest
    else c1 :: unescapeSlashes (c2 :: rest)

/-- Lines 154-156 of bot.py: search the page body for the embedded
download URL and unescape its path separators. -/
def resolveDownloadUrl (html : List Char) : Option (List Char) :=
  match reSearch matchDlAt html with
  | some m => some (unescapeSlashes m)
  | none => none

/-- Literal pieces of TERABOX_URL_REGEX, bot.py line 37. -/
def httpLit : List Char := ['h', 't', 't', 'p']

def schemeSepLit : List Char := [':', '/', '/']

def wwwLit : List Char := ['w', 'w', 'w', '.']

def teraboxHostLit : List Char :=
  ['t', 'e', 'r', 'a', 'b', 'o', 'x', '.', 'c', 'o', 'm', '/', 's', '/']

/-- The character class of the share-token in TERABOX_URL_REGEX:
ASCII letters, digits, underscore, hyphen. -/
def tokenChar (c : Char) : Bool := c.isAlpha || c.isDigit || c = '_' || c = '-'

/-- Greedy optional single character (the s? of the regex). -/
def optChar (c : Char) (s : List Char) : List Char × List Char :=
  match s with
  | [] => ([], [])
  | d :: r => if d = c then ([c], r) else ([], d :: r)

/-- Greedy optional literal (the optional www. group of the regex). -/
def optLit (lit : List Char) (s : List Char) : List Char × List Char :=
  match stripLit lit s with
  | some r => (lit, r)
  | none => ([], s)

/-- One position of TERABOX_URL_REGEX (bot.py line 37): http, optional
s, colon slash slash, optional www dot, the fixed host and path, then a
non-empty greedy run of token characters. -/
def matchTeraboxAt (s : List Char) : Option (List Char) :=
  match stripLit httpLit s with
  | none => none
  | some s1 =>
    let p := optChar 's' s1
    match stripLit schemeSepLit p.2 with
    | none => none
    | some s3 =>
      let q := optLit wwwLit s3
      match stripLit teraboxHostLit q.2 with
      | none => none
      | some s5 =>
        let tok := List.takeWhile tokenChar s5
        if tok = [] then none
        else some (httpLit ++ p.1 ++ schemeSepLit ++ q.1 ++ teraboxHostLit ++ tok)

/-- Lines 92-97 of bot.py: the first match of TERABOX_URL_REGEX in the
message text. -/
def extractTeraboxLink (text : List Char) : Option (List Char) :=
  reSearch matchTeraboxAt text

/-- Literal chars of the title-open tag of the regex in bot.py line 148. -/
def titleOpenLit : List Char := ['<', 't', 'i', 't', 'l', 'e', '>']

/-- Literal chars of the suffix of that regex: space hyphen space
Terabox. -/
def titleCloseLit : List Char := [' ', '-', ' ', 'T', 'e', 'r', 'a', 'b', 'o', 'x']

/-- Lazy scan for the shortest newline-free prefix followed by the
given literal (the lazy dot-star of the title regex). -/
def scanToLit (lit : List Char) : List Char → Option (List Char)
  | [] => none
  | c :: rest =>
    match stripLit lit (c :: rest) with
    | some _ => some []
    | none => if c = '\n' then none else (scanToLit lit rest).map (fun b => c :: b)

/-- One position of the title regex search of bot.py line 148. -/
def matchTitleAt (s : List Char) : Option (List Char) :=
  match stripLit titleOpenLit s with
  | none => none
  | some r => scanToLit titleCloseLit r

/-- Lines 148-149 of bot.py: display-name extraction, with the generic
default when the title pattern is absent. -/
def getFileName (html : List Char) : String :=
  match reSearch matchTitleAt html with
  | some t => String.mk (pyStrip t)
  | none => "terabox_file"

/-- Line 40 of bot.py. -/
def MAX_TELEGRAM_FILE_SIZE : Nat := 2 * 1024 * 1024 * 1024

def joinNowLabel : String := "Join Now"

def joinUrl (ch : String) : String := "https://t.me/" ++ ch

def mustJoinMsg (ch : String) : String :=
  "⚠️ You must join our channel @" ++ ch ++ " to use this bot."

def pleaseJoinMsg (ch : String) : String :=
  "⚠️ Please join our channel @" ++ ch ++ " to use this bot."

/-- Lines 43-74 of bot.py.  The CHANNEL_USERNAME configuration is an
optional string (Python falsiness of None and of the empty string both
disable the gate); the membership query either returns a status string
or raises.  Returns the boolean result and the actions performed. -/
def force_subscribe (channelUsername : Option String)
    (memberQuery : Except Unit String) : Bool × List Act :=
  match channelUsername with
  | none => (true, [])
  | some ch =>
    if ch.isEmpty then (true, [])
    else
      match memberQuery with
      | Except.ok status =>
        if status ∈ (["member", "administrator", "creator"] : List String) then (true, [])
        else (false, [Act.replyButton (mustJoinMsg ch) joinNowLabel (joinUrl ch)])
      | Except.error _ =>
        (false, [Act.replyButton (pleaseJoinMsg ch) joinNowLabel (joinUrl ch)])

/-- Lines 122-177 of bot.py.  External inputs: the page response (a
raised exception, or a status code and body), the download response (a
raised exception, or a status code; the streamed bytes do not affect
control flow) and the temp-file name chosen by the OS.  Returns the
Python pair file-path and file-name as an Option, together with the
actions performed.  Note the except-clause of lines 176-177 returns the
no-artifact pair without unlinking the temp file. -/
def download_terabox_file (terabox_link : String)
    (pageResp : Except Unit (Nat × List Char))
    (dlResp : Except Unit Nat)
    (tempName : String) : Option (String × String) × List Act :=
  match pageResp with
  | Except.error _ => (none, [Act.httpGet terabox_link])
  | Except.ok (status, html) =>
    if status = 200 then
      match resolveDownloadUrl html with
      | none => (none, [Act.httpGet terabox_link])
      | some u =>
        match dlResp with
        | Except.error _ =>
          (none, [Act.httpGet terabox_link, Act.createTempFile tempName,
                  Act.httpGet (String.mk u)])
        | Except.ok dstatus =>
          if dstatus = 200 then
            (some (tempName, getFileName html),
             [Act.httpGet terabox_link, Act.createTempFile tempName,
              Act.httpGet (String.mk u), Act.writeFile tempName])
          else
            (none, [Act.httpGet terabox_link, Act.createTempFile tempName,
                    Act.httpGet (String.mk u), Act.deleteFile tempName])
    else (none, [Act.httpGet terabox_link])

def invalidLinkMsg : String :=
  "❌ Please send a valid Terabox link (e.g. https://terabox.com/s/xyz)."

def progressMsg (link : String) : String :=
  "🔍 Downloading file from: " ++ link ++ "\nPlease wait..."

def downloadFailedMsg : String :=
  "❌ Failed to download the file. The link might be invalid or protected."

def tooLargeMsg : String :=
  "❌ Sorry, the file is too large to send via Telegram (max 2GB)."

def uploadErrorMsg (e : String) : String :=
  "❌ Error during download or upload: " ++ e

/-- Lines 84-119 of bot.py.  sendExc models reply_document raising with
the given exception text; fileSize is what os.path.getsize returns for
the downloaded artifact.  Note that in the branch where reply_document
raises, the except-clause of lines 118-119 replies with the error text
and does not remove the file. -/
def handle_message (channelUsername : Option String)
    (memberQuery : Except Unit String) (text : List Char)
    (pageResp : Except Unit (Nat × List Char)) (dlResp : Except Unit Nat)
    (tempName : String) (fileSize : Nat) (sendExc : Option String) : List Act :=
  let g := force_subscribe channelUsername memberQuery
  if g.1 = false then g.2
  else
    match extractTeraboxLink (pyStrip text) with
    | none => g.2 ++ [Act.replyText invalidLinkMsg]
    | some m =>
      let d := download_terabox_file (String.mk m) pageResp dlResp tempName
      match d.1 with
      | none =>
        g.2 ++ (Act.replyText (progressMsg (String.mk m)) :: d.2)
          ++ [Act.replyText downloadFailedMsg]
      | some fp =>
        if fileSize > MAX_TELEGRAM_FILE_SIZE then
          g.2 ++ (Act.replyText (progressMsg (String.mk m)) :: d.2)
            ++ [Act.replyText tooLargeMsg, Act.deleteFile fp.1]
        else
          match sendExc with
          | some e =>
            g.2 ++ (Act.replyText (progressMsg (String.mk m)) :: d.2)
              ++ [Act.replyText (uploadErrorMsg e)]
          | none =>
            g.2 ++ (Act.replyText (progressMsg (String.mk m)) :: d.2)
              ++ [Act.sendDocument fp.1 fp.2, Act.deleteFile fp.1]

theorem stripLit_append (l t : List Char) : stripLit l (l ++ t) = some t := by
  induction l with
  | nil => rfl
  | cons c l ih => simp [stripLit, ih]

theorem stripLit_append_none (a b s : List Char) (h : stripLit a s = none) :
    stripLit (a ++ b) s = none := by
  induction a generalizing s with
  | nil => simp [stripLit] at h
  | cons c a ih =>
    cases s with
    | nil => rfl
    | cons d s =>
      by_cases hcd : c = d
      · subst hcd
        simp [stripLit] at h ⊢
        exact ih s h
      · simp [stripLit, hcd]

theorem reSearch_of_match_ne (m : List Char → Option (List Char)) (s v : List Char)
    (hs : s ≠ []) (h : m s = some v) : reSearch m s = some v := by
  cases s with
  | nil => exact absurd rfl hs
  | cons c t => simp [reSearch, h]

theorem reSearch_cons_of_none (m : List Char → Option (List Char)) (c : Char)
    (t : List Char) (h : m (c :: t) = none) : reSearch m (c :: t) = reSearch m t := by
  simp [reSearch, h]

theorem reSearch_append (m : List Char → Option (List Char)) (pre s : List Char)
    (h : ∀ n, n < pre.length → m (List.drop n (pre ++ s)) = none) :
    reSearch m (pre ++ s) = reSearch m s := by
  induction pre with
  | nil => rfl
  | cons c pre ih =>
    have h0 : m (c :: (pre ++ s)) = none := h 0 (by simp)
    calc reSearch m ((c :: pre) ++ s)
        = reSearch m (pre ++ s) := reSearch_cons_of_none m c (pre ++ s) h0
      _ = reSearch m s := ih (fun n hn => h (n + 1) (by simpa using Nat.succ_lt_succ hn))

theorem reSearch_none (m : List Char → Option (List Char)) (s : List Char)
    (h : ∀ n, m (List.drop n s) = none) : reSearch m s = none := by
  induction s with
  | nil => rfl
  | cons c t ih =>
    rw [reSearch_cons_of_none m c t (h 0)]
    exact ih (fun n => h (n + 1))

theorem takeToQuote_append (rest suf : List Char) (hq : ('"') ∉ rest) :
    takeToQuote (rest ++ ('"') :: suf) = some rest := by
  induction rest with
  | nil => simp [takeToQuote]
  | cons c r ih =>
    have hc : ¬(c = '"') := by
      intro e
      exact hq (by simp [e])
    have hr : ('"') ∉ r := fun hm => hq (List.mem_cons_of_mem _ hm)
    simp [takeToQuote, hc, ih hr]

theorem matchDlAt_key (rest suf : List Char) (hne : rest ≠ []) (hq : ('"') ∉ rest) :
    matchDlAt (dlKeyLit ++ (httpsEscLit ++ (rest ++ ('"') :: suf)))
      = some (httpsEscLit ++ rest) := by
  have h1 : stripLit (dlKeyLit ++ httpsEscLit)
      (dlKeyLit ++ (httpsEscLit ++ (rest ++ ('"') :: suf))) = some (rest ++ ('"') :: suf) := by
    rw [← List.append_assoc]
    exact stripLit_append _ _
  simp [matchDlAt, h1, takeToQuote_append rest suf hq, hne]

theorem matchDlAt_none_of_no_key (s : List Char) (h : stripLit dlKeyLit s = none) :
    matchDlAt s = none := by
  simp [matchDlAt, stripLit_append_none dlKeyLit httpsEscLit s h]

theorem unescape_httpsEsc (rest : List Char) :
    unescapeSlashes (httpsEscLit ++ rest)
      = ['h', 't', 't', 'p', 's', ':', '/', '/'] ++ unescapeSlashes rest := rfl

/-- C2: for every page body containing a well-formed embedded
download-URL token (the JSON key download_url, first occurring at the
given position, whose value is an https URL with escaped path
separators and no embedded double quote), the fetch routine extracts
exactly that value and unescapes every escaped separator, yielding the
direct-download URL. -/
theorem c2_download_url_extracted_and_unescaped (pre rest suf : List Char)
    (hfirst : ∀ n, n < pre.length →
      stripLit dlKeyLit
        (List.drop n (pre ++ (dlKeyLit ++ (httpsEscLit ++ (rest ++ ('"') :: suf))))) = none)
    (hne : rest ≠ []) (hq : ('"') ∉ rest) :
    resolveDownloadUrl (pre ++ (dlKeyLit ++ (httpsEscLit ++ (rest ++ ('"') :: suf))))
      = some (['h', 't', 't', 'p', 's', ':', '/', '/'] ++ unescapeSlashes rest) := by
  have hsearch : reSearch matchDlAt (pre ++ (dlKeyLit ++ (httpsEscLit ++ (rest ++ ('"') :: suf))))
      = reSearch matchDlAt (dlKeyLit ++ (httpsEscLit ++ (rest ++ ('"') :: suf))) :=
    reSearch_append _ _ _ (fun n hn => matchDlAt_none_of_no_key _ (hfirst n hn))
  have hne2 : dlKeyLit ++ (httpsEscLit ++ (rest ++ ('"') :: suf)) ≠ [] := by
    simp [dlKeyLit]
  have hm := reSearch_of_match_ne matchDlAt _ _ hne2 (matchDlAt_key rest suf hne hq)
  simp [resolveDownloadUrl, hsearch, hm, unescape_httpsEsc]

/-- Witness for C2 at a concrete page body. -/
theorem c2_download_url_witness :
    resolveDownloadUrl (("<script>v=").toList
        ++ (dlKeyLit ++ (httpsEscLit ++ (("cdn.example.com\\/f1").toList
            ++ ('"') :: ("</script>").toList))))
      = some (['h', 't', 't', 'p', 's', ':', '/', '/']
          ++ unescapeSlashes (("cdn.example.com\\/f1").toList)) :=
  c2_download_url_extracted_and_unescaped _ _ _ (by decide) (by decide) (by decide)

/-- The shape of a share link accepted by TERABOX_URL_REGEX: scheme
http or https, optional www dot, the fixed host, the path /s/ and a
token. -/
def linkOf (useS useW : Bool) (tok : List Char) : List Char :=
  httpLit ++ ((if useS then ['s'] else []) ++ (schemeSepLit
    ++ ((if useW then wwwLit else []) ++ (teraboxHostLit ++ tok))))

theorem takeWhile_token_append (tok suf : List Char)
    (hc : ∀ c ∈ tok, tokenChar c = true)
    (hsuf : ∀ c, List.head? suf = some c → tokenChar c = false) :
    List.takeWhile tokenChar (tok ++ suf) = tok := by
  induction tok with
  | nil =>
    cases suf with
    | nil => rfl
    | cons c s => simp [List.takeWhile_cons, hsuf c rfl]
  | cons d tok ih =>
    have hd : tokenChar d = true := hc d (by simp)
    simp [List.takeWhile_cons, hd, ih (fun c hm => hc c (by simp [hm]))]

theorem matchTeraboxAt_link (useS useW : Bool) (tok suf : List Char)
    (htok : tok ≠ []) (hc : ∀ c ∈ tok, tokenChar c = true)
    (hsuf : ∀ c, List.head? suf = some c → tokenChar c = false) :
    matchTeraboxAt (linkOf useS useW tok ++ suf) = some (linkOf useS useW tok) := by
  have htw := takeWhile_token_append tok suf hc hsuf
  cases useS <;> cases useW <;>
    simp [linkOf, matchTeraboxAt, optChar, optLit, stripLit, httpLit, schemeSepLit,
      wwwLit, teraboxHostLit, List.append_assoc, htw, htok]

/-- C3: for every free-form input text, the link extractor returns the
first substring matching the share-link pattern (http or https scheme,
optional www, fixed host terabox.com, the path /s/ and a non-empty
token of letters, digits, underscore and hyphen, taken greedily),
ignoring any further links and all surrounding text. -/
theorem c3_first_terabox_link_extracted (pre tok suf : List Char) (useS useW : Bool)
    (hfirst : ∀ n, n < pre.length →
      matchTeraboxAt (List.drop n (pre ++ (linkOf useS useW tok ++ suf))) = none)
    (htok : tok ≠ []) (hc : ∀ c ∈ tok, tokenChar c = true)
    (hsuf : ∀ c, List.head? suf = some c → tokenChar c = false) :
    extractTeraboxLink (pre ++ (linkOf useS useW tok ++ suf))
      = some (linkOf useS useW tok) := by
  have h1 : reSearch matchTeraboxAt (pre ++ (linkOf useS useW tok ++ suf))
      = reSearch matchTeraboxAt (linkOf useS useW tok ++ suf) :=
    reSearch_append _ _ _ hfirst
  have hne : linkOf useS useW tok ++ suf ≠ [] := by simp [linkOf, httpLit]
  have h2 := reSearch_of_match_ne matchTeraboxAt _ _ hne
    (matchTeraboxAt_link useS useW tok suf htok hc hsuf)
  simp [extractTeraboxLink, h1, h2]

/-- Witness for C3: the example of the spec. -/
theorem c3_example_link :
    extractTeraboxLink (("check this https://terabox.com/s/AbC123_-xyz please").toList)
      = some (("https://terabox.com/s/AbC123_-xyz").toList) := by
  have e1 : ("check this https://terabox.com/s/AbC123_-xyz please").toList
      = ("check this ").toList
        ++ (linkOf true false (("AbC123_-xyz").toList) ++ (" please").toList) := by decide
  have e2 : ("https://terabox.com/s/AbC123_-xyz").toList
      = linkOf true false (("AbC123_-xyz").toList) := by decide
  rw [e1, e2]
  exact c3_first_terabox_link_extracted _ _ _ true false (by decide) (by decide)
    (by decide) (by decide)

/-- Python truthiness of the configured channel value: None and the
empty string both count as not configured. -/
def channelIsSet : Option String → Bool
  | none => false
  | some s => !s.isEmpty

/-- Spec-side allow predicate (section 4.1 of the spec): allow iff no
group identity is configured, or the queried membership status is
member, administrator or creator; any query failure is a deny. -/
def gateAllowSpec (cfg : Option String) (q : Except Unit String) : Bool :=
  !channelIsSet cfg ||
    (match q with
     | Except.ok s => (s == "member") || (s == "administrator") || (s == "creator")
     | Except.error _ => false)

/-- The configured handle, when present. -/
def chOf : Option String → String
  | none => ""
  | some s => s

/-- Boolean check that an action is a join-prompt reply for the given
handle: a button reply labelled Join Now, pointing at the public group
URL, whose message text mentions the handle with an at-sign. -/
def joinPromptFor (ch : String) (a : Act) : Bool :=
  match a with
  | Act.replyButton msg label url =>
    (label == joinNowLabel) && (url == joinUrl ch)
      && decide ((("@" ++ ch).toList) <:+: msg.toList)
  | _ => false

theorem toList_append (s t : String) : (s ++ t).toList = s.toList ++ t.toList :=
  String.data_append s t

theorem handle_infix_mustJoin (ch : String) :
    (("@" ++ ch).toList) <:+: (mustJoinMsg ch).toList := by
  refine ⟨("⚠️ You must join our channel ").toList, (" to use this bot.").toList, ?_⟩
  have e : ("⚠️ You must join our channel ").toList ++ ("@").toList
      = ("⚠️ You must join our channel @").toList := by decide
  simp only [mustJoinMsg, toList_append, List.append_assoc]
  rw [← List.append_assoc, ← List.append_assoc, e, List.append_assoc]

theorem handle_infix_pleaseJoin (ch : String) :
    (("@" ++ ch).toList) <:+: (pleaseJoinMsg ch).toList := by
  refine ⟨("⚠️ Please join our channel ").toList, (" to use this bot.").toList, ?_⟩
  have e : ("⚠️ Please join our channel ").toList ++ ("@").toList
      = ("⚠️ Please join our channel @").toList := by decide
  simp only [pleaseJoinMsg, toList_append, List.append_assoc]
  rw [← List.append_assoc, ← List.append_assoc, e, List.append_assoc]

theorem joinPromptFor_mustJoin (ch : String) :
    joinPromptFor ch (Act.replyButton (mustJoinMsg ch) joinNowLabel (joinUrl ch)) = true := by
  simp [joinPromptFor]
  exact handle_infix_mustJoin ch

theorem joinPromptFor_pleaseJoin (ch : String) :
    joinPromptFor ch (Act.replyButton (pleaseJoinMsg ch) joinNowLabel (joinUrl ch)) = true := by
  simp [joinPromptFor]
  exact handle_infix_pleaseJoin ch

theorem force_subscribe_allow_acts (cfg : Option String) (q : Except Unit String)
    (h : (force_subscribe cfg q).1 = true) : (force_subscribe cfg q).2 = [] := by
  cases cfg with
  | none => rfl
  | some ch =>
    by_cases he : ch.isEmpty
    · simp [force_subscribe, he]
    · cases q with
      | error e => simp [force_subscribe, he] at h
      | ok s =>
        by_cases hm : s ∈ (["member", "administrator", "creator"] : List String)
        · simp [force_subscribe, he, hm]
        · simp [force_subscribe, he, hm] at h

/-- C5: the membership gate allows exactly when no group identity is
configured or the queried status is member, administrator or creator;
every other outcome, including a query failure, is a deny, on which
exactly one reply is sent, and that reply names the group handle and
carries a clickable Join Now button pointing at the group URL. -/
theorem c5_membership_gate_characterization (cfg : Option String) (q : Except Unit String) :
    (force_subscribe cfg q).1 = gateAllowSpec cfg q
    ∧ ((force_subscribe cfg q).1 = false →
        (force_subscribe cfg q).2.length = 1
        ∧ (force_subscribe cfg q).2.countP (joinPromptFor (chOf cfg)) = 1) := by
  cases cfg with
  | none => simp [force_subscribe, gateAllowSpec, channelIsSet]
  | some ch =>
    by_cases he : ch.isEmpty
    · simp [force_subscribe, gateAllowSpec, channelIsSet, he]
    · cases q with
      | error e =>
        refine ⟨by simp [force_subscribe, gateAllowSpec, channelIsSet, he], fun _ => ?_⟩
        simp [force_subscribe, he, chOf, List.countP_cons, joinPromptFor_pleaseJoin ch]
      | ok s =>
        by_cases hm : s ∈ (["member", "administrator", "creator"] : List String)
        · have hb : ((s == "member") || (s == "administrator") || (s == "creator")) = true := by
            simp at hm
            rcases hm with h1 | h1 | h1 <;> simp [h1]
          refine ⟨by simp [force_subscribe, gateAllowSpec, channelIsSet, he, hm, hb], ?_⟩
          intro hfalse
          simp [force_subscribe, he, hm] at hfalse
        · have hb : ((s == "member") || (s == "administrator") || (s == "creator")) = false := by
            simp only [Bool.or_eq_false_iff, beq_eq_false_iff_ne]
            simp only [List.mem_cons, List.not_mem_nil, or_false] at hm
            push_neg at hm
            exact ⟨⟨hm.1, hm.2.1⟩, hm.2.2⟩
          refine ⟨by simp [force_subscribe, gateAllowSpec, channelIsSet, he, hm, hb], fun _ => ?_⟩
          simp [force_subscribe, he, hm, chOf, List.countP_cons, joinPromptFor_mustJoin ch]

/-- Witness for C5 on the deny side: a failing query with a configured
group yields exactly one join-prompt reply. -/
theorem c5_witness :
    (force_subscribe (some ("grp")) (Except.error ())).2.length = 1
    ∧ (force_subscribe (some ("grp")) (Except.error ())).2.countP
        (joinPromptFor (chOf (some ("grp")))) = 1 :=
  (c5_membership_gate_characterization (some ("grp")) (Except.error ())).2 (by decide)

def isHttpGet : Act → Bool
  | Act.httpGet _ => true
  | _ => false

def isSendDocument : Act → Bool
  | Act.sendDocument _ _ => true
  | _ => false

def isCreateTempFile : Act → Bool
  | Act.createTempFile _ => true
  | _ => false

theorem download_no_send (link : String) (pageResp : Except Unit (Nat × List Char))
    (dlResp : Except Unit Nat) (tempName : String) :
    ((download_terabox_file link pageResp dlResp tempName).2.all
      (fun a => !isSendDocument a)) = true := by
  cases pageResp with
  | error e => simp [download_terabox_file, isSendDocument]
  | ok p =>
    obtain ⟨status, html⟩ := p
    by_cases hs : status = 200
    · cases hre : resolveDownloadUrl html with
      | none => simp [download_terabox_file, hs, hre, isSendDocument]
      | some u =>
        cases dlResp with
        | error e => simp [download_terabox_file, hs, hre, isSendDocument]
        | ok d =>
          by_cases hd : d = 200 <;>
            simp [download_terabox_file, hs, hre, hd, isSendDocument]
    · simp [download_terabox_file, hs, isSendDocument]

/-- C4: for every inbound message whose text matches the share-link
pattern at no position (and whose sender passes the membership gate),
the handler replies with the format-hint message only, and its action
trace contains no HTTP request at all: the fetch routine is never
invoked. -/
theorem c4_no_link_format_hint_no_fetch (cfg : Option String) (q : Except Unit String)
    (text : List Char) (pageResp : Except Unit (Nat × List Char)) (dlResp : Except Unit Nat)
    (tempName : String) (fileSize : Nat) (sendExc : Option String)
    (hjoin : (force_subscribe cfg q).1 = true)
    (hno : ∀ n, n < (pyStrip text).length →
      matchTeraboxAt (List.drop n (pyStrip text)) = none) :
    handle_message cfg q text pageResp dlResp tempName fileSize sendExc
      = [Act.replyText invalidLinkMsg]
    ∧ ((handle_message cfg q text pageResp dlResp tempName fileSize sendExc).all
        (fun a => !isHttpGet a)) = true := by
  have hall : ∀ n, matchTeraboxAt (List.drop n (pyStrip text)) = none := by
    intro n
    by_cases hn : n < (pyStrip text).length
    · exact hno n hn
    · rw [List.drop_eq_nil_of_le (le_of_not_lt hn)]
      rfl
  have hsearch : extractTeraboxLink (pyStrip text) = none :=
    reSearch_none matchTeraboxAt (pyStrip text) hall
  have hacts := force_subscribe_allow_acts cfg q hjoin
  constructor
  · simp [handle_message, hjoin, hacts, hsearch]
  · simp [handle_message, hjoin, hacts, hsearch, isHttpGet]

/-- Witness for C4 at a concrete linkless message. -/
theorem c4_witness :
    handle_message none (Except.ok ("member")) (("hello there").toList) (Except.error ())
        (Except.error ()) ("/tmp/a") 0 none = [Act.replyText invalidLinkMsg]
    ∧ ((handle_message none (Except.ok ("member")) (("hello there").toList) (Except.error ())
        (Except.error ()) ("/tmp/a") 0 none).all (fun a => !isHttpGet a)) = true :=
  c4_no_link_format_hint_no_fetch none (Except.ok ("member")) (("hello there").toList)
    (Except.error ()) (Except.error ()) ("/tmp/a") 0 none (by decide) (by decide)

/-- C6: for every page body in which the download-url token is absent,
the fetch routine returns no artifact, performs only the single page
request, and never creates a temporary file. -/
theorem c6_missing_token_no_tempfile (link : String) (html : List Char)
    (dlResp : Except Unit Nat) (tempName : String)
    (hno : resolveDownloadUrl html = none) :
    download_terabox_file link (Except.ok (200, html)) dlResp tempName
      = (none, [Act.httpGet link])
    ∧ ((download_terabox_file link (Except.ok (200, html)) dlResp tempName).2.all
        (fun a => !isCreateTempFile a)) = true := by
  have h1 : download_terabox_file link (Except.ok (200, html)) dlResp tempName
      = (none, [Act.httpGet link]) := by
    simp [download_terabox_file, hno]
  exact ⟨h1, by simp [h1, isCreateTempFile]⟩

/-- Witness for C6 at a concrete token-free page body. -/
theorem c6_witness :
    download_terabox_file ("https://terabox.com/s/abc")
        (Except.ok (200, ("<html>no token here</html>").toList)) (Except.ok 200) ("/tmp/t6")
      = (none, [Act.httpGet ("https://terabox.com/s/abc")])
    ∧ ((download_terabox_file ("https://terabox.com/s/abc")
        (Except.ok (200, ("<html>no token here</html>").toList)) (Except.ok 200)
        ("/tmp/t6")).2.all (fun a => !isCreateTempFile a)) = true :=
  c6_missing_token_no_tempfile _ _ _ _ (by decide)

/-- C7: for every fetch in which the GET of the resolved download URL
returns a non-200 status, the routine returns no artifact and the
freshly created temporary file is deleted before returning. -/
theorem c7_non200_download_cleanup (link : String) (html u : List Char)
    (dstatus : Nat) (tempName : String)
    (hu : resolveDownloadUrl html = some u) (hd : dstatus ≠ 200) :
    download_terabox_file link (Except.ok (200, html)) (Except.ok dstatus) tempName
      = (none, [Act.httpGet link, Act.createTempFile tempName,
          Act.httpGet (String.mk u), Act.deleteFile tempName]) := by
  simp [download_terabox_file, hu, hd]

/-- Shared concrete page body containing a well-formed download-url
token. -/
def sampleHtml : List Char :=
  ("<b>\"download_url\":\"https:\\/\\/d.example.com\\/f1\"</b>").toList

/-- Witness for C7 at a concrete page body and a 404 download. -/
theorem c7_witness :
    download_terabox_file ("https://terabox.com/s/abc") (Except.ok (200, sampleHtml))
        (Except.ok 404) ("/tmp/t7")
      = (none, [Act.httpGet ("https://terabox.com/s/abc"), Act.createTempFile ("/tmp/t7"),
          Act.httpGet (String.mk (("https://d.example.com/f1").toList)),
          Act.deleteFile ("/tmp/t7")]) :=
  c7_non200_download_cleanup _ _ _ _ _ (by decide) (by decide)

/-- C8: the fetch routine never propagates a raised exception: when the
page request raises, or the download request raises, it returns the
no-artifact result. -/
theorem c8_no_exception_propagation (link : String)
    (pageResp : Except Unit (Nat × List Char)) (dlResp : Except Unit Nat)
    (tempName : String)
    (h : pageResp = Except.error () ∨ dlResp = Except.error ()) :
    (download_terabox_file link pageResp dlResp tempName).1 = none := by
  rcases h with h | h
  · subst h
    rfl
  · subst h
    cases pageResp with
    | error e => rfl
    | ok p =>
      obtain ⟨status, html⟩ := p
      by_cases hs : status = 200
      · cases hre : resolveDownloadUrl html with
        | none => simp [download_terabox_file, hs, hre]
        | some u => simp [download_terabox_file, hs, hre]
      · simp [download_terabox_file, hs]

/-- Witness for C8: a raised page request yields no artifact. -/
theorem c8_witness :
    (download_terabox_file ("https://terabox.com/s/abc") (Except.error ()) (Except.ok 200)
      ("/tmp/t8")).1 = none :=
  c8_no_exception_propagation _ _ _ _ (Or.inl rfl)

/-- C9: for every successfully fetched artifact whose reported size
exceeds the 2 GiB ceiling, the handler replies with the size-limit
message, deletes the local file, and sends no document attachment. -/
theorem c9_oversize_rejected_and_deleted (cfg : Option String) (q : Except Unit String)
    (text : List Char) (pageResp : Except Unit (Nat × List Char)) (dlResp : Except Unit Nat)
    (tempName : String) (fileSize : Nat) (sendExc : Option String) (m : List Char)
    (fp : String × String)
    (hjoin : (force_subscribe cfg q).1 = true)
    (hlink : extractTeraboxLink (pyStrip text) = some m)
    (hfetch : (download_terabox_file (String.mk m) pageResp dlResp tempName).1 = some fp)
    (hsize : fileSize > MAX_TELEGRAM_FILE_SIZE) :
    handle_message cfg q text pageResp dlResp tempName fileSize sendExc
      = Act.replyText (progressMsg (String.mk m))
          :: (download_terabox_file (String.mk m) pageResp dlResp tempName).2
        ++ [Act.replyText tooLargeMsg, Act.deleteFile fp.1]
    ∧ ((handle_message cfg q text pageResp dlResp tempName fileSize sendExc).all
        (fun a => !isSendDocument a)) = true := by
  have hacts := force_subscribe_allow_acts cfg q hjoin
  have h1 : handle_message cfg q text pageResp dlResp tempName fileSize sendExc
      = Act.replyText (progressMsg (String.mk m))
          :: (download_terabox_file (String.mk m) pageResp dlResp tempName).2
        ++ [Act.replyText tooLargeMsg, Act.deleteFile fp.1] := by
    simp [handle_message, hjoin, hacts, hlink, hfetch, hsize]
  refine ⟨h1, ?_⟩
  rw [h1]
  have hd := download_no_send (String.mk m) pageResp dlResp tempName
  simp only [List.all_cons, List.all_append, hd]
  simp [isSendDocument]

/-- Witness for C9 at a concrete oversize artifact. -/
theorem c9_witness :
    handle_message none (Except.ok ("member")) (("https://terabox.com/s/abc").toList)
        (Except.ok (200, sampleHtml)) (Except.ok 200) ("/tmp/t9")
        (MAX_TELEGRAM_FILE_SIZE + 1) none
      = Act.replyText (progressMsg (String.mk (("https://terabox.com/s/abc").toList)))
          :: (download_terabox_file (String.mk (("https://terabox.com/s/abc").toList))
              (Except.ok (200, sampleHtml)) (Except.ok 200) ("/tmp/t9")).2
        ++ [Act.replyText tooLargeMsg, Act.deleteFile ("/tmp/t9")]
    ∧ ((handle_message none (Except.ok ("member")) (("https://terabox.com/s/abc").toList)
        (Except.ok (200, sampleHtml)) (Except.ok 200) ("/tmp/t9")
        (MAX_TELEGRAM_FILE_SIZE + 1) none).all (fun a => !isSendDocument a)) = true :=
  c9_oversize_rejected_and_deleted none (Except.ok ("member"))
    (("https://terabox.com/s/abc").toList) (Except.ok (200, sampleHtml)) (Except.ok 200)
    ("/tmp/t9") (MAX_TELEGRAM_FILE_SIZE + 1) none (("https://terabox.com/s/abc").toList)
    (("/tmp/t9", "terabox_file")) (by decide) (by decide) (by decide) (by decide)

/-- C1: the cleanup invariant fails on the code.  Two concrete runs:
in the first, the download GET raises after the temporary file was
created, and the except-clause of the fetch routine returns without
unlinking it; in the second, the document send raises after a
successful download, and the top-level except-clause of the handler
replies without removing the file.  In both runs the trace creates the
temporary file once and never deletes it. -/
theorem c1_temp_file_leaked_on_exception :
    ((handle_message none (Except.ok ("member")) (("https://terabox.com/s/abc").toList)
        (Except.ok (200, sampleHtml)) (Except.error ()) ("/tmp/tb1") 5 none).count
      (Act.createTempFile ("/tmp/tb1")) = 1
    ∧ (handle_message none (Except.ok ("member")) (("https://terabox.com/s/abc").toList)
        (Except.ok (200, sampleHtml)) (Except.error ()) ("/tmp/tb1") 5 none).count
      (Act.deleteFile ("/tmp/tb1")) = 0)
    ∧ ((handle_message none (Except.ok ("member")) (("https://terabox.com/s/abc").toList)
        (Except.ok (200, sampleHtml)) (Except.ok 200) ("/tmp/tb2") 5 (some ("boom"))).count
      (Act.createTempFile ("/tmp/tb2")) = 1
    ∧ (handle_message none (Except.ok ("member")) (("https://terabox.com/s/abc").toList)
        (Except.ok (200, sampleHtml)) (Except.ok 200) ("/tmp/tb2") 5 (some ("boom"))).count
      (Act.deleteFile ("/tmp/tb2")) = 0) := by decide

/-- C10: the size ceiling is exclusive: an artifact of exactly
2147483648 bytes is not rejected, because the check of bot.py line 108
uses a strict greater-than against 2 * 1024 * 1024 * 1024; the handler
proceeds to send the document and then deletes the file. -/
theorem c10_exact_2gib_sent :
    handle_message none (Except.ok ("member")) (("https://terabox.com/s/abc").toList)
        (Except.ok (200, sampleHtml)) (Except.ok 200) ("/tmp/tb3")
        (2 * 1024 * 1024 * 1024) none
      = [Act.replyText (progressMsg ("https://terabox.com/s/abc")),
          Act.httpGet ("https://terabox.com/s/abc"), Act.createTempFile ("/tmp/tb3"),
          Act.httpGet ("https://d.example.com/f1"), Act.writeFile ("/tmp/tb3"),
          Act.sendDocument ("/tmp/tb3") ("terabox_file"), Act.deleteFile ("/tmp/tb3")]
    ∧ 2 * 1024 * 1024 * 1024 = MAX_TELEGRAM_FILE_SIZE := by decide
